import Mathlib

/-!
Shallow embedding of the keyframe animation recorder/player of `src/media.js`
(the "Minds Eye" media-control layer): the `AnimationState` singleton, the
recorder (`recordState`), position capture (`deepCopyIdeas`,
`captureBubblePositions`), timeline markers, the player
(`startPlayback`, `stopPlayback`, the per-frame tick of `animateBubbles`,
`interpolateBubblePositions`) and persistence (`saveAnimation`,
`loadAnimation`).

JavaScript numbers that flow through entity fields are modelled by `JSVal`:
either `undef` (the field is absent / `undefined`), `nonfinite` (NaN and the
infinities, collapsed into one value: inside the interpolation arithmetic
every non-finite operand produces a non-finite result, so the collapse is
faithful there), or a finite rational `num q`.  Timeline times, durations and
progress values are finite rationals throughout the modelled operations, so
they are carried as plain `ℚ`.
-/

/-- Value of a JavaScript numeric object field: absent (`undefined`),
non-finite (NaN or an infinity), or a finite number. -/
inductive JSVal where
  | undef
  | nonfinite
  | num (q : ℚ)
deriving DecidableEq, Repr, Inhabited

namespace JSVal

/-- JS addition on field values: any `undefined` or non-finite operand makes
the result non-finite (undefined coerces to NaN; NaN/∞ propagate). -/
def add : JSVal → JSVal → JSVal
  | num a, num b => num (a + b)
  | _, _ => nonfinite

/-- JS subtraction on field values. -/
def sub : JSVal → JSVal → JSVal
  | num a, num b => num (a - b)
  | _, _ => nonfinite

/-- JS multiplication on field values.  A non-finite factor always yields a
non-finite product here (`0 * ±∞` and `0 * NaN` are both NaN). -/
def mul : JSVal → JSVal → JSVal
  | num a, num b => num (a * b)
  | _, _ => nonfinite

/-- JS division on field values: division of a finite number by zero yields
`±∞` or NaN, i.e. `nonfinite`. -/
def div : JSVal → JSVal → JSVal
  | num a, num b => if b = 0 then nonfinite else num (a / b)
  | _, _ => nonfinite

end JSVal

/-- A live entity ("idea bubble") or an entity snapshot.  The source stores
these as plain JS objects with scalar fields; a missing optional field reads
as `undefined` (`JSVal.undef`).  `title` stands for the descriptive fields
that are copied verbatim and never interpolated. -/
structure Idea where
  x : JSVal
  y : JSVal
  vx : JSVal
  vy : JSVal
  radius : JSVal
  title : String
deriving DecidableEq, Repr, Inhabited

/-- A keyframe: a timestamp (seconds) plus the captured entity snapshots. -/
structure Keyframe where
  time : ℚ
  positions : List Idea
deriving DecidableEq, Repr, Inhabited

/-- A timeline marker, as built by `addTimelineMarker`.  The `position`
percentage is computed with JS division (`time / (duration/1000) * 100`), so
it is a `JSVal`. -/
structure TimelineMarker where
  type : String
  time : ℚ
  position : JSVal
deriving DecidableEq, Repr, Inhabited

/-- The `AnimationState.data` record of the source.  In the source `inPoint`
and `outPoint` start out as `null`; the modelled operations only ever read
them after they have been assigned numbers, so they are carried as `ℚ`. -/
structure AnimData where
  inPoint : ℚ
  outPoint : ℚ
  keyframes : List Keyframe
  duration : ℚ
  isRecording : Bool
  isPlaying : Bool
  currentTime : ℚ
  startTime : ℚ
deriving DecidableEq, Repr, Inhabited

/-- The `AnimationState` singleton: `data` plus the marker list and the
playback bookkeeping fields stored next to it. -/
structure AnimState where
  data : AnimData
  timelineMarkers : List TimelineMarker
  playbackStartTime : ℚ
  playbackDuration : ℚ
  currentPlaybackTime : ℚ
deriving DecidableEq, Repr, Inhabited

/-- The initial `AnimationState` (keyframes empty, duration 10000 ms;
`inPoint`/`outPoint` are `null` in the source and arbitrarily 0 here). -/
def initialAnimState : AnimState :=
  { data := { inPoint := 0, outPoint := 0, keyframes := [],
              duration := 10000, isRecording := false, isPlaying := false,
              currentTime := 0, startTime := 0 },
    timelineMarkers := [], playbackStartTime := 0, playbackDuration := 0,
    currentPlaybackTime := 0 }

/-- The `AnimationState.reset()` method: clears keyframes and markers and
both flags. -/
def AnimState.reset (st : AnimState) : AnimState :=
  { st with
    data := { st.data with keyframes := [], isRecording := false, isPlaying := false },
    timelineMarkers := [] }

/-- The `AnimationState.updateDuration(duration)` method. -/
def AnimState.updateDuration (d : ℚ) (st : AnimState) : AnimState :=
  { st with data := { st.data with duration := d } }

/-- The per-idea shallow spread copy `{ ...idea }`: every scalar field is
copied into a fresh object. -/
def copyIdea (idea : Idea) : Idea :=
  { x := idea.x, y := idea.y, vx := idea.vx, vy := idea.vy,
    radius := idea.radius, title := idea.title }

/-- The source `deepCopyIdeas()`: `ideas.map(idea => ({ ...idea }))`. -/
def deepCopyIdeas (ideas : List Idea) : List Idea :=
  ideas.map copyIdea

/-- The source `captureBubblePositions()`: returns `deepCopyIdeas()` (the
rest of the function is logging only). -/
def captureBubblePositions (ideas : List Idea) : List Idea :=
  deepCopyIdeas ideas

/-- The source `addTimelineMarker(type, time)`: builds a marker whose
`position` is `time / (AnimationState.data.duration / 1000) * 100`, removes
any existing marker of the same type, and pushes the new one. -/
def addTimelineMarker (ty : String) (time : ℚ) (st : AnimState) : AnimState :=
  let marker : TimelineMarker :=
    { type := ty, time := time,
      position := ((JSVal.num time).div (JSVal.num (st.data.duration / 1000))).mul
        (JSVal.num 100) }
  { st with timelineMarkers :=
      (st.timelineMarkers.filter (fun m => m.type != ty)) ++ [marker] }

/-- The source `updateTimelineMarkers()`: clears the marker list, adds the
in marker at 0 and the out marker at `outPoint`, then adds a keyframe marker
for every keyframe strictly inside `(0, outPoint)`. -/
def updateTimelineMarkers (st : AnimState) : AnimState :=
  let st := { st with timelineMarkers := [] }
  let st := addTimelineMarker "in" 0 st
  let st := addTimelineMarker "out" st.data.outPoint st
  st.data.keyframes.foldl
    (fun s kf =>
      if 0 < kf.time ∧ kf.time < s.data.outPoint then
        addTimelineMarker "keyframe" kf.time s
      else s) st

/-- Replacement of `keyframes[i].positions = ps` (all other keyframes and
the keyframe's own `time` are untouched). -/
def updatePositionsAt (i : ℕ) (ps : List Idea) : List Keyframe → List Keyframe
  | [] => []
  | kf :: rest =>
    match i with
    | 0 => { kf with positions := ps } :: rest
    | j + 1 => kf :: updatePositionsAt j ps rest

/-- The JS `keyframes.findIndex(kf => kf.time === t)` (with `none` for -1):
index of the first keyframe whose time equals `t` exactly. -/
def findIndexTime (t : ℚ) : List Keyframe → Option ℕ
  | [] => none
  | kf :: rest => if kf.time = t then some 0 else (findIndexTime t rest).map (· + 1)

/-- The three `recordState` operation types. -/
inductive RecType where
  | start
  | endRec
  | keyframe
deriving DecidableEq, Repr

/-- The source `recordState(type)`.  `durationInput` is
`parseInt(durationSelect.value)`, `sliderProgress` is
`parseFloat(timelineSlider.value)`, and `ideas` is the live entity list read
by `captureBubblePositions`.  The second component is the `alert(...)`
message, `none` when no alert fires.  The auto-pause in the `start` branch
touches only the external speed control, so it has no effect on the modelled
state; the DOM-only display updates are likewise omitted. -/
def recordState (ty : RecType) (durationInput sliderProgress : ℚ)
    (ideas : List Idea) (st : AnimState) : AnimState × Option String :=
  let duration := durationInput
  let st := st.updateDuration duration
  match ty with
  | .start =>
      let st := st.reset
      let st := { st with data := { st.data with
                    inPoint := 0, outPoint := duration / 1000, isRecording := true } }
      let currentPositions := captureBubblePositions ideas
      let st := { st with data := { st.data with keyframes :=
                    [{ time := 0, positions := currentPositions },
                     { time := duration / 1000, positions := currentPositions }] } }
      let st := addTimelineMarker "in" 0 st
      let st := addTimelineMarker "out" (duration / 1000) st
      (st, none)
  | .endRec =>
      if st.data.isRecording = false then
        (st, some "Please start recording first (mark in point)")
      else
        let progress := sliderProgress
        let endTime := progress * (duration / 1000)
        let st := { st with data := { st.data with outPoint := endTime, isRecording := false } }
        let st := updateTimelineMarkers st
        let endPositions := captureBubblePositions ideas
        let st :=
          match findIndexTime st.data.outPoint st.data.keyframes with
          | some i =>
              { st with data := { st.data with
                  keyframes := updatePositionsAt i endPositions st.data.keyframes } }
          | none =>
              { st with data := { st.data with
                  keyframes := st.data.keyframes ++ [{ time := endTime, positions := endPositions }] } }
        (st, none)
  | .keyframe =>
      let st := if st.data.isPlaying then
                  { st with data := { st.data with isPlaying := false } }
                else st
      let progress := sliderProgress
      let keyframeTime := progress * (duration / 1000)
      let maxTime := duration / 1000
      if keyframeTime ≤ 0 ∨ keyframeTime ≥ maxTime then
        (st, some "Keyframe must be between start and end of animation")
      else
        let keyframePositions := captureBubblePositions ideas
        let kf : Keyframe := { time := keyframeTime, positions := keyframePositions }
        let st :=
          if st.data.isRecording = false then
            { st with data := { st.data with
                isRecording := true, inPoint := 0, outPoint := maxTime, keyframes := [] } }
          else st
        let st := { st with data := { st.data with keyframes := st.data.keyframes ++ [kf] } }
        let st := addTimelineMarker "keyframe" keyframeTime st
        (st, none)

/-- The source `stopPlayback()`: clears the `isPlaying` flag and nothing
else. -/
def stopPlayback (st : AnimState) : AnimState :=
  { st with data := { st.data with isPlaying := false } }

/-- The source `startPlayback()`.  `now` is `Date.now()`.  Rejects with an
alert when fewer than 2 keyframes exist; toggles to stop when already
playing; otherwise records the start timestamp and computes
`playbackDuration = (outPoint - inPoint) * 1000`.  The first frame callback
it kicks off is modelled separately by `animateStep`. -/
def startPlayback (now : ℚ) (st : AnimState) : AnimState × Option String :=
  if st.data.keyframes.length < 2 then
    (st, some "Please set in point first to create animation (need at least 2 keyframes)")
  else if st.data.isPlaying then
    (stopPlayback st, none)
  else
    let st := { st with data := { st.data with isPlaying := true } }
    let st := { st with
                playbackStartTime := now,
                playbackDuration := (st.data.outPoint - st.data.inPoint) * 1000 }
    (st, none)

/-- What a tick of the scheduled `animate()` closure inside `animateBubbles`
produces: the updated state, the (possibly rewritten) live entity list, the
computed progress, and whether `requestAnimationFrame` was called again. -/
structure TickResult where
  st : AnimState
  ideas : List Idea
  progress : ℚ
  rescheduled : Bool
deriving DecidableEq, Repr

/-- Per-field linear interpolation as written in the source:
`startPos.f + (endPos.f - startPos.f) * segmentProgress`. -/
def interpField (s e seg : JSVal) : JSVal :=
  s.add ((e.sub s).mul seg)

/-- One iteration of the interpolation write loop for entity `index`:
`startPos`/`endPos` are `startPositions[index]`/`endPositions[index]`
(`none` when the index is out of range, in which case the entity is left
untouched).  `x`/`y` are always written; `vx`/`vy` are written when both
snapshots have `vx` defined (the source checks only `vx`); `radius` is
written when both snapshots have `radius` defined. -/
def interpIdea (seg : JSVal) (startPos? endPos? : Option Idea) (idea : Idea) : Idea :=
  match startPos?, endPos? with
  | some startPos, some endPos =>
      let idea := { idea with x := interpField startPos.x endPos.x seg,
                              y := interpField startPos.y endPos.y seg }
      let idea :=
        if startPos.vx ≠ JSVal.undef ∧ endPos.vx ≠ JSVal.undef then
          { idea with vx := interpField startPos.vx endPos.vx seg,
                      vy := interpField startPos.vy endPos.vy seg }
        else idea
      if startPos.radius ≠ JSVal.undef ∧ endPos.radius ≠ JSVal.undef then
        { idea with radius := interpField startPos.radius endPos.radius seg }
      else idea
  | _, _ => idea

/-- The `for (let index = 0; index < ideasLength; index++)` write loop of
`interpolateBubblePositions`, with `n` the index of the first remaining
entity. -/
def interpolateLoop (seg : JSVal) (sps eps : List Idea) : ℕ → List Idea → List Idea
  | _, [] => []
  | n, idea :: rest =>
      interpIdea seg sps[n]? eps[n]? idea :: interpolateLoop seg sps eps (n + 1) rest

/-- The keyframe scan of `interpolateBubblePositions`: the first adjacent
pair `(k_i, k_{i+1})` with `k_i.time ≤ currentTime ≤ k_{i+1}.time`, if any. -/
def findSegment (c : ℚ) : List Keyframe → Option (Keyframe × Keyframe)
  | k1 :: k2 :: rest =>
      if k1.time ≤ c ∧ c ≤ k2.time then some (k1, k2)
      else findSegment c (k2 :: rest)
  | _ => none

/-- The source `interpolateBubblePositions(progress)`: returns the rewritten
live entity list.  Aborts (entities untouched) when fewer than 2 keyframes
exist; converts `progress` to `currentTime = progress * (duration / 1000)`
(using the `duration` field, not `outPoint - inPoint`); selects the
bracketing pair, defaulting to the first and last keyframes when no adjacent
pair contains `currentTime`; computes the segment fraction with an unguarded
division; then runs the write loop. -/
def interpolateBubblePositions (progress : ℚ) (dta : AnimData) (ideas : List Idea) :
    List Idea :=
  if dta.keyframes.length < 2 then ideas
  else
    let currentTime := progress * (dta.duration / 1000)
    let pair :=
      match findSegment currentTime dta.keyframes with
      | some p => p
      | none => (dta.keyframes.headD default, dta.keyframes.getLastD default)
    let startKeyframe := pair.1
    let endKeyframe := pair.2
    let segmentProgress :=
      (JSVal.num (currentTime - startKeyframe.time)).div
        (JSVal.num (endKeyframe.time - startKeyframe.time))
    interpolateLoop segmentProgress startKeyframe.positions endKeyframe.positions 0 ideas

/-- One invocation of the `animate()` closure scheduled by
`animateBubbles(duration)`.  `duration` is the closure argument
(`playbackDuration` at start time), `now` is `Date.now()` at this tick.
Returns immediately without rescheduling when `isPlaying` is false (the
reported progress is then an arbitrary 0: the source never computes one);
otherwise computes `progress = min(elapsed / duration, 1)`, updates the
current playback time, interpolates, and either reschedules (progress < 1)
or clears `isPlaying` (progress = 1). -/
def animateStep (duration now : ℚ) (ideas : List Idea) (st : AnimState) : TickResult :=
  if st.data.isPlaying = false then
    { st := st, ideas := ideas, progress := 0, rescheduled := false }
  else
    let elapsed := now - st.playbackStartTime
    let progress := min (elapsed / duration) 1
    let st := { st with currentPlaybackTime :=
                  st.data.inPoint + progress * (st.data.outPoint - st.data.inPoint) }
    let ideas := interpolateBubblePositions progress st.data ideas
    if progress < 1 then
      { st := st, ideas := ideas, progress := progress, rescheduled := true }
    else
      { st := { st with data := { st.data with isPlaying := false } },
        ideas := ideas, progress := progress, rescheduled := false }

/-- The JSON document written by `saveAnimation`: the spread of
`AnimationState.data` plus a timestamp and a generated name. -/
structure SavedDoc where
  inPoint : ℚ
  outPoint : ℚ
  keyframes : List Keyframe
  duration : ℚ
  isRecording : Bool
  isPlaying : Bool
  currentTime : ℚ
  startTime : ℚ
  timestamp : ℚ
  name : String
deriving DecidableEq, Repr, Inhabited

/-- The source `saveAnimation()`: alerts and produces nothing when fewer
than 2 keyframes exist, otherwise serializes the whole `AnimationState.data`
plus `timestamp` (`Date.now()`, passed as `now`) and the timestamp-derived
`name` (passed as `name`: its generation is pure date formatting).  The
state itself is never mutated. -/
def saveAnimation (now : ℚ) (name : String) (st : AnimState) :
    Option SavedDoc × Option String :=
  if st.data.keyframes.length < 2 then
    (none, some "Please record an animation first (mark in and out points)")
  else
    (some { inPoint := st.data.inPoint, outPoint := st.data.outPoint,
            keyframes := st.data.keyframes, duration := st.data.duration,
            isRecording := st.data.isRecording, isPlaying := st.data.isPlaying,
            currentTime := st.data.currentTime, startTime := st.data.startTime,
            timestamp := now, name := name }, none)

/-- A parsed load document as `loadAnimation` reads it: each consulted JSON
field may be absent. -/
structure LoadedDoc where
  inPoint : Option ℚ
  outPoint : Option ℚ
  keyframes : Option (List Keyframe)
  duration : Option ℚ
  name : Option String
deriving DecidableEq, Repr, Inhabited

/-- The JS `v || d` default on a numeric field: absent (undefined) and 0 are
both falsy and fall back to the default. -/
def jsOrNum (v : Option ℚ) (d : ℚ) : ℚ :=
  match v with
  | none => d
  | some q => if q = 0 then d else q

/-- Re-reading a saved document: JSON stringify/parse preserves every field,
so the parsed document carries each saved field as present. -/
def docOfSaved (doc : SavedDoc) : LoadedDoc :=
  { inPoint := some doc.inPoint, outPoint := some doc.outPoint,
    keyframes := some doc.keyframes, duration := some doc.duration,
    name := some doc.name }

/-- Everything observable after `loadAnimation` runs on a parsed document:
the (possibly marker-updated) `AnimationState`, the value stored into the
implicit global `animationData` (assigned nowhere else in the repository),
the value stored into the implicit global `timelineMarkers` (distinct from
`AnimationState.timelineMarkers`), and the alert message if any. -/
structure LoadResult where
  st : AnimState
  animationData : Option AnimData
  deadTimelineMarkers : Option (List TimelineMarker)
  alertMsg : Option String
deriving DecidableEq, Repr

/-- The `reader.onload` body of the source `loadAnimation()` on a parsed
document.  Rejects (alert, nothing stored) when `keyframes` is absent or has
fewer than 2 entries.  Otherwise it builds the loaded record into the
implicit global `animationData` — not into `AnimationState.data` — clears
the implicit global `timelineMarkers` (not `AnimationState.timelineMarkers`),
and then calls `addTimelineMarker` for each loaded keyframe plus the in/out
markers, which does mutate `AnimationState.timelineMarkers` and reads the
old `AnimationState.data.duration` for the percentage positions. -/
def loadAnimation (doc : LoadedDoc) (st : AnimState) : LoadResult :=
  match doc.keyframes with
  | none =>
      { st := st, animationData := none, deadTimelineMarkers := none,
        alertMsg := some "Invalid animation file: missing keyframes" }
  | some kfs =>
      if kfs.length < 2 then
        { st := st, animationData := none, deadTimelineMarkers := none,
          alertMsg := some "Invalid animation file: missing keyframes" }
      else
        let animationData : AnimData :=
          { inPoint := jsOrNum doc.inPoint 0, outPoint := jsOrNum doc.outPoint 10,
            keyframes := kfs, duration := jsOrNum doc.duration 10000,
            isRecording := false, isPlaying := false, currentTime := 0, startTime := 0 }
        let st := kfs.foldl (fun s kf => addTimelineMarker "keyframe" kf.time s) st
        let st := addTimelineMarker "in" 0 st
        let st := addTimelineMarker "out" animationData.outPoint st
        { st := st, animationData := some animationData,
          deadTimelineMarkers := some [], alertMsg := none }

namespace RefModel

/-!
Object-identity refinement of the begin operation and of position capture.
The value-level model above cannot distinguish two references to one object
from two equal objects, so the two claims about pointer identity are settled
against this rendering, in which snapshot arrays live in an explicit store
and keyframes hold references (store indices) instead of inline lists, and
live entities live in an explicit heap addressed by references.  The
operations are the same source lines as in the value-level model; only
allocation is made explicit.
-/

/-- A keyframe holding a reference (store index) to its positions array. -/
structure RKeyframe where
  time : ℚ
  posRef : ℕ
deriving DecidableEq, Repr, Inhabited

/-- The parts of `AnimationState` touched by the `start` branch, with an
explicit store of allocated snapshot arrays. -/
structure RState where
  store : List (List Idea)
  keyframes : List RKeyframe
  inPoint : ℚ
  outPoint : ℚ
  isRecording : Bool
deriving DecidableEq, Repr, Inhabited

/-- The empty state with an empty store. -/
def initialRState : RState :=
  { store := [], keyframes := [], inPoint := 0, outPoint := 0, isRecording := false }

/-- Dereference a snapshot-array reference. -/
def readSnap (st : RState) (r : ℕ) : List Idea :=
  st.store.getD r []

/-- The `type === 'start'` branch of `recordState` with allocation explicit:
`captureBubblePositions()` allocates one fresh array, and the object literal
for the keyframe list stores the *same* reference to it in both keyframes
(`positions: currentPositions` twice). -/
def recordStateStart (durationInput : ℚ) (ideas : List Idea) (st : RState) : RState :=
  let currentPositions := captureBubblePositions ideas
  let r := st.store.length
  { store := st.store ++ [currentPositions],
    keyframes := [{ time := 0, posRef := r },
                  { time := durationInput / 1000, posRef := r }],
    inPoint := 0, outPoint := durationInput / 1000, isRecording := true }

/-- Dereference a live-entity reference in a heap of entity objects. -/
def readIdea (heap : List Idea) (r : ℕ) : Idea :=
  (heap[r]?).getD default

/-- Mutate the entity object at reference `r` (a field assignment on a live
entity). -/
def writeIdea (heap : List Idea) (r : ℕ) (v : Idea) : List Idea :=
  heap.set r v

/-- `captureBubblePositions` with allocation explicit: the live entity list
is a list of references into the heap, and `ideas.map(idea => ({ ...idea }))`
allocates one fresh object per entity, appended at the end of the heap.
Returns the grown heap and the list of fresh references. -/
def captureRefs (heap : List Idea) (live : List ℕ) : List Idea × List ℕ :=
  (heap ++ live.map (readIdea heap),
   (List.range live.length).map (fun i => heap.length + i))

end RefModel

/-! Concrete fixtures used by the concrete-input theorems below. -/

/-- A concrete entity with position only. -/
def ideaA : Idea :=
  { x := JSVal.num 10, y := JSVal.num 20, vx := JSVal.undef, vy := JSVal.undef,
    radius := JSVal.undef, title := "a" }

/-- The entity `ideaA` after being moved to x = 50. -/
def ideaB : Idea :=
  { x := JSVal.num 50, y := JSVal.num 20, vx := JSVal.undef, vy := JSVal.undef,
    radius := JSVal.undef, title := "a" }

/-- The state right after a Begin operation with duration 10000 ms on the
single entity `ideaA`. -/
def stBeginA : AnimState := (recordState .start 10000 0 [ideaA] initialAnimState).1

/-- The document produced by saving `stBeginA` (outPoint 10, duration 10000,
two keyframes). -/
def docC1 : SavedDoc := ((saveAnimation 1234 "Animation_A" stBeginA).1).getD default

/-- The state after re-recording over `stBeginA` with duration 5000 ms
(outPoint 5, duration 5000). -/
def stC1b : AnimState := (recordState .start 5000 0 [ideaA] stBeginA).1

/-- Everything observable after loading `docC1` back over `stC1b`. -/
def resC1 : LoadResult := loadAnimation (docOfSaved docC1) stC1b

/-- A snapshot with `vx` defined but `vy` absent. -/
def spC7 : Idea :=
  { x := JSVal.num 0, y := JSVal.num 0, vx := JSVal.num 1,
    vy := JSVal.undef, radius := JSVal.undef, title := "s" }

/-- A second snapshot with `vx` defined but `vy` absent. -/
def epC7 : Idea :=
  { x := JSVal.num 10, y := JSVal.num 0, vx := JSVal.num 3,
    vy := JSVal.undef, radius := JSVal.undef, title := "s" }

/-- A live entity with every field defined. -/
def ideaC7 : Idea :=
  { x := JSVal.num 99, y := JSVal.num 99, vx := JSVal.num 7,
    vy := JSVal.num 8, radius := JSVal.num 5, title := "c" }

/-- Animation data with two keyframes at times 0 and 10 holding `spC7` and
`epC7`. -/
def dtaC7 : AnimData :=
  { inPoint := 0, outPoint := 10,
    keyframes := [{ time := 0, positions := [spC7] },
                  { time := 10, positions := [epC7] }],
    duration := 10000, isRecording := false, isPlaying := false,
    currentTime := 0, startTime := 0 }

/-- A snapshot at position (1, 2). -/
def spC6 : Idea :=
  { x := JSVal.num 1, y := JSVal.num 2, vx := JSVal.undef, vy := JSVal.undef,
    radius := JSVal.undef, title := "k" }

/-- A snapshot at position (3, 4). -/
def epC6 : Idea :=
  { x := JSVal.num 3, y := JSVal.num 4, vx := JSVal.undef, vy := JSVal.undef,
    radius := JSVal.undef, title := "k" }

/-- Animation data with two keyframes at times 2 and 6. -/
def dtaC6 : AnimData :=
  { inPoint := 0, outPoint := 10,
    keyframes := [{ time := 2, positions := [spC6] },
                  { time := 6, positions := [epC6] }],
    duration := 10000, isRecording := false, isPlaying := false,
    currentTime := 0, startTime := 0 }

/-- Animation data whose two keyframes share the time value 5. -/
def dtaZ : AnimData :=
  { inPoint := 0, outPoint := 10,
    keyframes := [{ time := 5, positions := [spC6] },
                  { time := 5, positions := [epC6] }],
    duration := 10000, isRecording := false, isPlaying := false,
    currentTime := 0, startTime := 0 }

/-- The initial state with the `isPlaying` flag set. -/
def stPlayingZ : AnimState :=
  { initialAnimState with data := { initialAnimState.data with isPlaying := true } }

/-! Helper lemmas about the embedded operations. -/

theorem copyIdea_eq (idea : Idea) : copyIdea idea = idea := rfl

theorem captureBubblePositions_eq (ideas : List Idea) :
    captureBubblePositions ideas = ideas := by
  show ideas.map copyIdea = ideas
  rw [show copyIdea = id from rfl, List.map_id]

theorem findIndexTime_eq_none {t : ℚ} :
    ∀ {ks : List Keyframe}, (∀ kf ∈ ks, kf.time ≠ t) → findIndexTime t ks = none := by
  intro ks
  induction ks with
  | nil => intro _; rfl
  | cons kf rest ih =>
      intro h
      have h1 : kf.time ≠ t := h kf (by simp)
      have h2 : findIndexTime t rest = none := ih (fun k hk => h k (by simp [hk]))
      simp [findIndexTime, h1, h2]

theorem findIndexTime_lt_length {t : ℚ} :
    ∀ {ks : List Keyframe} {i : ℕ}, findIndexTime t ks = some i → i < ks.length := by
  intro ks
  induction ks with
  | nil => intro i h; simp [findIndexTime] at h
  | cons kf rest ih =>
      intro i h
      simp only [findIndexTime] at h
      by_cases ht : kf.time = t
      · rw [if_pos ht] at h
        injection h with h'
        subst h'
        simp
      · rw [if_neg ht] at h
        obtain ⟨j, hj, hji⟩ := Option.map_eq_some'.mp h
        have := ih hj
        subst hji
        simp only [List.length_cons]
        omega

theorem updatePositionsAt_length (ps : List Idea) :
    ∀ (ks : List Keyframe) (i : ℕ), (updatePositionsAt i ps ks).length = ks.length := by
  intro ks
  induction ks with
  | nil => intro i; simp [updatePositionsAt]
  | cons kf rest ih =>
      intro i
      match i with
      | 0 => simp [updatePositionsAt]
      | j + 1 => simp [updatePositionsAt, ih j]

theorem updatePositionsAt_getD_self (ps : List Idea) :
    ∀ (ks : List Keyframe) (i : ℕ), i < ks.length →
      (updatePositionsAt i ps ks).getD i default =
        { time := (ks.getD i default).time, positions := ps } := by
  intro ks
  induction ks with
  | nil => intro i h; simp at h
  | cons kf rest ih =>
      intro i h
      match i with
      | 0 => simp [updatePositionsAt]
      | j + 1 =>
          simp only [updatePositionsAt, List.getD_cons_succ]
          exact ih j (by simpa using h)

theorem updatePositionsAt_getD_ne (ps : List Idea) :
    ∀ (ks : List Keyframe) (i j : ℕ), j ≠ i →
      (updatePositionsAt i ps ks).getD j default = ks.getD j default := by
  intro ks
  induction ks with
  | nil => intro i j _; simp [updatePositionsAt]
  | cons kf rest ih =>
      intro i j hji
      match i with
      | 0 =>
          match j with
          | 0 => exact absurd rfl hji
          | j' + 1 => simp [updatePositionsAt]
      | i' + 1 =>
          match j with
          | 0 => simp [updatePositionsAt]
          | j' + 1 =>
              simp only [updatePositionsAt, List.getD_cons_succ]
              exact ih i' j' (by omega)

theorem JSVal.mul_nonfinite (a : JSVal) : a.mul JSVal.nonfinite = JSVal.nonfinite := by
  cases a <;> rfl

theorem JSVal.add_nonfinite (a : JSVal) : a.add JSVal.nonfinite = JSVal.nonfinite := by
  cases a <;> rfl

theorem interpField_nonfinite (s e : JSVal) :
    interpField s e JSVal.nonfinite = JSVal.nonfinite := by
  simp [interpField, JSVal.mul_nonfinite, JSVal.add_nonfinite]

theorem interpField_num (a b t : ℚ) :
    interpField (JSVal.num a) (JSVal.num b) (JSVal.num t) =
      JSVal.num (a + (b - a) * t) := rfl

theorem interpIdea_x (seg : JSVal) (sp ep idea : Idea) :
    (interpIdea seg (some sp) (some ep) idea).x = interpField sp.x ep.x seg := by
  unfold interpIdea
  dsimp only
  split <;> split <;> rfl

theorem interpIdea_y (seg : JSVal) (sp ep idea : Idea) :
    (interpIdea seg (some sp) (some ep) idea).y = interpField sp.y ep.y seg := by
  unfold interpIdea
  dsimp only
  split <;> split <;> rfl

theorem interpIdea_title (seg : JSVal) (sp ep idea : Idea) :
    (interpIdea seg (some sp) (some ep) idea).title = idea.title := by
  unfold interpIdea
  dsimp only
  split <;> split <;> rfl

theorem interpIdea_vx_defined (seg : JSVal) (sp ep idea : Idea)
    (h : sp.vx ≠ JSVal.undef ∧ ep.vx ≠ JSVal.undef) :
    (interpIdea seg (some sp) (some ep) idea).vx = interpField sp.vx ep.vx seg ∧
    (interpIdea seg (some sp) (some ep) idea).vy = interpField sp.vy ep.vy seg := by
  by_cases hr : sp.radius ≠ JSVal.undef ∧ ep.radius ≠ JSVal.undef <;>
    simp [interpIdea, h, hr]

theorem interpIdea_vx_undefined (seg : JSVal) (sp ep idea : Idea)
    (h : ¬ (sp.vx ≠ JSVal.undef ∧ ep.vx ≠ JSVal.undef)) :
    (interpIdea seg (some sp) (some ep) idea).vx = idea.vx ∧
    (interpIdea seg (some sp) (some ep) idea).vy = idea.vy := by
  by_cases hr : sp.radius ≠ JSVal.undef ∧ ep.radius ≠ JSVal.undef <;>
    simp [interpIdea, h, hr]

theorem interpIdea_radius_defined (seg : JSVal) (sp ep idea : Idea)
    (h : sp.radius ≠ JSVal.undef ∧ ep.radius ≠ JSVal.undef) :
    (interpIdea seg (some sp) (some ep) idea).radius =
      interpField sp.radius ep.radius seg := by
  by_cases hv : sp.vx ≠ JSVal.undef ∧ ep.vx ≠ JSVal.undef <;>
    simp [interpIdea, h, hv]

theorem interpIdea_radius_undefined (seg : JSVal) (sp ep idea : Idea)
    (h : ¬ (sp.radius ≠ JSVal.undef ∧ ep.radius ≠ JSVal.undef)) :
    (interpIdea seg (some sp) (some ep) idea).radius = idea.radius := by
  by_cases hv : sp.vx ≠ JSVal.undef ∧ ep.vx ≠ JSVal.undef <;>
    simp [interpIdea, h, hv]

theorem interpIdea_none (seg : JSVal) (sp? ep? : Option Idea) (idea : Idea)
    (h : sp? = none ∨ ep? = none) :
    interpIdea seg sp? ep? idea = idea := by
  cases sp? <;> cases ep? <;> first
    | rfl
    | (cases h <;> simp_all)

theorem interpolateLoop_length (seg : JSVal) (sps eps : List Idea) :
    ∀ (l : List Idea) (n : ℕ), (interpolateLoop seg sps eps n l).length = l.length := by
  intro l
  induction l with
  | nil => intro n; rfl
  | cons idea rest ih => intro n; simp [interpolateLoop, ih (n + 1)]

theorem interpolateLoop_getD (seg : JSVal) (sps eps : List Idea) :
    ∀ (l : List Idea) (n k : ℕ), k < l.length →
      (interpolateLoop seg sps eps n l).getD k default =
        interpIdea seg sps[(n + k)]? eps[(n + k)]? (l.getD k default) := by
  intro l
  induction l with
  | nil => intro n k h; simp at h
  | cons idea rest ih =>
      intro n k h
      match k with
      | 0 => simp [interpolateLoop]
      | k' + 1 =>
          simp only [interpolateLoop, List.getD_cons_succ]
          rw [ih (n + 1) k' (by simpa using h)]
          congr 2 <;> omega

theorem findSegment_pair (c : ℚ) (k0 k1 : Keyframe) :
    findSegment c [k0, k1] =
      if k0.time ≤ c ∧ c ≤ k1.time then some (k0, k1) else none := by
  simp [findSegment]

theorem interp_two (progress : ℚ) (dta : AnimData) (ideas : List Idea)
    (k0 k1 : Keyframe) (hk : dta.keyframes = [k0, k1]) :
    interpolateBubblePositions progress dta ideas =
      interpolateLoop
        ((JSVal.num (progress * (dta.duration / 1000) - k0.time)).div
          (JSVal.num (k1.time - k0.time)))
        k0.positions k1.positions 0 ideas := by
  unfold interpolateBubblePositions
  rw [hk]
  simp only [List.length_cons, List.length_nil]
  rw [if_neg (by omega)]
  rw [findSegment_pair]
  by_cases hc : k0.time ≤ progress * (dta.duration / 1000) ∧
      progress * (dta.duration / 1000) ≤ k1.time
  · rw [if_pos hc]
  · rw [if_neg hc]
    simp [List.getLastD]


theorem addTimelineMarker_data (ty : String) (t : ℚ) (st : AnimState) :
    (addTimelineMarker ty t st).data = st.data := rfl

theorem foldl_keyframeMarkers_data :
    ∀ (l : List Keyframe) (s : AnimState),
      (l.foldl (fun s kf =>
        if 0 < kf.time ∧ kf.time < s.data.outPoint then
          addTimelineMarker "keyframe" kf.time s
        else s) s).data = s.data := by
  intro l
  induction l with
  | nil => intro s; rfl
  | cons kf rest ih =>
      intro s
      simp only [List.foldl_cons]
      rw [ih]
      split <;> rfl

theorem updateTimelineMarkers_data (st : AnimState) :
    (updateTimelineMarkers st).data = st.data := by
  unfold updateTimelineMarkers
  rw [foldl_keyframeMarkers_data]
  rfl

/-! Claim theorems. -/

/-- C1: a save/load round trip never reaches `AnimationState`.  Saving the
state after Begin(10000 ms) produces a document `docC1` with `outPoint = 10`
and `duration = 10000`; after the state is re-recorded with duration 5000 ms
(`stC1b`: `outPoint = 5`, `duration = 5000`), loading that document back
succeeds (no alert) yet leaves `AnimationState.data` — `inPoint`,
`outPoint`, `duration` and `keyframes` — completely unchanged:
`loadAnimation` stores the loaded record only into the write-only implicit
global `animationData`. -/
theorem C1_load_never_updates_animation_state :
    docC1.outPoint = 10 ∧ docC1.duration = 10000 ∧ docC1.keyframes.length = 2 ∧
    stC1b.data.outPoint = 5 ∧ stC1b.data.duration = 5000 ∧
    resC1.alertMsg = none ∧
    resC1.st.data = stC1b.data ∧
    resC1.animationData = some { inPoint := 0, outPoint := 10, keyframes := docC1.keyframes,
                                 duration := 10000, isRecording := false, isPlaying := false,
                                 currentTime := 0, startTime := 0 } := by
  norm_num [recordState, AnimState.updateDuration, AnimState.reset, addTimelineMarker,
    captureBubblePositions, deepCopyIdeas, copyIdea, initialAnimState, saveAnimation,
    loadAnimation, docOfSaved, jsOrNum, ideaA, stBeginA, docC1, stC1b, resC1]

/-- C2 counterexample: after Begin with duration 10000 ms on one entity, the
two created keyframes reference the *same* snapshot array (both hold store
reference 0), so the claim that the two snapshots are pointer-distinct is
false at this input. -/
theorem C2_begin_snapshots_pointer_equal :
    let st' := RefModel.recordStateStart 10000 [ideaA] RefModel.initialRState
    st'.keyframes.length = 2 ∧
    ¬ ((st'.keyframes.getD 0 default).posRef ≠ (st'.keyframes.getD 1 default).posRef) := by
  norm_num [RefModel.recordStateStart, RefModel.initialRState, captureBubblePositions,
    deepCopyIdeas, copyIdea]

/-- C2 (amended): after Begin with duration D, `keyframes` has length
exactly 2 with times 0 and D/1000, both keyframes hold snapshots that are
value-equal to the captured positions — and the two snapshots are the same
object (pointer-equal), not pointer-distinct: in the reference model both
keyframes hold the same fresh store reference. -/
theorem C2_begin_invariant (D p : ℚ) (ideas : List Idea) (st : AnimState)
    (rst : RefModel.RState) :
    let st' := (recordState .start D p ideas st).1
    let rst' := RefModel.recordStateStart D ideas rst
    st'.data.keyframes.length = 2 ∧
    st'.data.keyframes.map Keyframe.time = [0, D / 1000] ∧
    st'.data.keyframes.map Keyframe.positions =
      [captureBubblePositions ideas, captureBubblePositions ideas] ∧
    rst'.keyframes.map RefModel.RKeyframe.posRef = [rst.store.length, rst.store.length] ∧
    RefModel.readSnap rst' rst.store.length = captureBubblePositions ideas := by
  refine ⟨?_, ?_, ?_, ?_, ?_⟩
  · rfl
  · simp [recordState, AnimState.updateDuration, AnimState.reset, addTimelineMarker]
  · simp [recordState, AnimState.updateDuration, AnimState.reset, addTimelineMarker]
  · simp [RefModel.recordStateStart]
  · simp [RefModel.recordStateStart, RefModel.readSnap,
      List.getD_append_right, List.getD_cons_zero]

/-- C3 counterexample: after Begin(10000 ms) the old `outPoint` is 10 and a
keyframe with time 10 exists; an End at slider progress 1/2 sets the new
`outPoint` to 5 and then — although a keyframe whose time equals the old
`outPoint` exists — the keyframe at time 10 keeps its stale positions and a
new keyframe at time 5 is appended: the lookup uses the new `outPoint`, not
the old one, so the claim is false at this input. -/
theorem C3_end_appends_despite_match_at_old_outpoint :
    let st1 := stBeginA
    let res := recordState .endRec 10000 (1/2) [ideaB] st1
    st1.data.outPoint = 10 ∧
    st1.data.keyframes.map Keyframe.time = [0, 10] ∧
    captureBubblePositions [ideaB] ≠ captureBubblePositions [ideaA] ∧
    res.1.data.keyframes.map Keyframe.time = [0, 10, 5] ∧
    (res.1.data.keyframes.getD 1 default).positions = captureBubblePositions [ideaA] := by
  norm_num [recordState, AnimState.updateDuration, AnimState.reset, addTimelineMarker,
    updateTimelineMarkers, findIndexTime, updatePositionsAt, stBeginA,
    captureBubblePositions, deepCopyIdeas, copyIdea, initialAnimState, ideaA, ideaB]

/-- C3 (amended): an End while recording sets `outPoint` to the
scrubber-derived `endTime` and clears `isRecording`; the freshly captured
positions replace the positions of the first keyframe whose time exactly
equals the NEW `outPoint` (that is, `endTime` itself, since the lookup runs
after the assignment), leaving its time and all other keyframes unchanged,
and a new keyframe is appended exactly when no keyframe's time equals
`endTime`. -/
theorem C3_end_update (dur p : ℚ) (ideas : List Idea) (st : AnimState)
    (hrec : st.data.isRecording = true) :
    let endTime := p * (dur / 1000)
    let endPositions := captureBubblePositions ideas
    let res := recordState .endRec dur p ideas st
    res.2 = none ∧
    res.1.data.outPoint = endTime ∧
    res.1.data.isRecording = false ∧
    ((∀ kf ∈ st.data.keyframes, kf.time ≠ endTime) →
      res.1.data.keyframes =
        st.data.keyframes ++ [{ time := endTime, positions := endPositions }]) ∧
    (∀ i, findIndexTime endTime st.data.keyframes = some i →
      res.1.data.keyframes = updatePositionsAt i endPositions st.data.keyframes ∧
      res.1.data.keyframes.length = st.data.keyframes.length ∧
      (res.1.data.keyframes.getD i default).positions = endPositions ∧
      (res.1.data.keyframes.getD i default).time =
        (st.data.keyframes.getD i default).time ∧
      (∀ j, j ≠ i → res.1.data.keyframes.getD j default =
        st.data.keyframes.getD j default)) := by
  intro endTime endPositions res
  have hres : res = recordState .endRec dur p ideas st := rfl
  simp only [recordState, AnimState.updateDuration, hrec, Bool.true_eq_false,
    if_false, updateTimelineMarkers_data] at hres
  cases hidx : findIndexTime endTime st.data.keyframes with
  | none =>
      rw [hidx] at hres
      dsimp only at hres
      refine ⟨by rw [hres], by rw [hres], by rw [hres], ?_, ?_⟩
      · intro _; rw [hres]
      · intro i hi; cases hi
  | some i =>
      rw [hidx] at hres
      dsimp only at hres
      have hlt : i < st.data.keyframes.length := findIndexTime_lt_length hidx
      refine ⟨by rw [hres], by rw [hres], by rw [hres], ?_, ?_⟩
      · intro hnone
        rw [findIndexTime_eq_none hnone] at hidx
        cases hidx
      · intro i' hi'
        injection hi' with hii
        subst hii
        refine ⟨by rw [hres], ?_, ?_, ?_, ?_⟩
        · rw [hres]; exact updatePositionsAt_length _ _ _
        · rw [hres]
          rw [updatePositionsAt_getD_self _ _ _ hlt]
        · rw [hres]
          rw [updatePositionsAt_getD_self _ _ _ hlt]
        · intro j hj
          rw [hres]
          exact updatePositionsAt_getD_ne _ _ _ _ hj

/-- C3 witness: the amended End property evaluated after Begin(10000 ms) at
slider progress 1: no alert and the new `outPoint` is 1 * (10000/1000). -/
theorem C3_end_update_witness :
    stBeginA.data.isRecording = true ∧
    (recordState .endRec 10000 1 [ideaB] stBeginA).2 = none ∧
    (recordState .endRec 10000 1 [ideaB] stBeginA).1.data.outPoint =
      (1 : ℚ) * (10000 / 1000) :=
  ⟨rfl, (C3_end_update 10000 1 [ideaB] stBeginA rfl).1,
    (C3_end_update 10000 1 [ideaB] stBeginA rfl).2.1⟩

/-- C4 counterexample: with `outPoint = 5` (after an End at progress 1/2)
and duration 10000 ms, an Add-keyframe at slider progress 7/10 derives
`keyframeTime = 7`, which is at or above `outPoint`; the claim demands an
error and no mutation, yet the operation raises no alert and rebuilds the
keyframe list (the code's bound is `duration / 1000 = 10`, not `outPoint`). -/
theorem C4_accepts_time_beyond_outpoint :
    let st2 := (recordState .endRec 10000 (1/2) [ideaA] stBeginA).1
    let res := recordState .keyframe 10000 (7/10) [ideaB] st2
    st2.data.outPoint = 5 ∧
    res.2 = none ∧
    res.1.data.keyframes.map Keyframe.time = [7] := by
  norm_num [recordState, AnimState.updateDuration, AnimState.reset, addTimelineMarker,
    updateTimelineMarkers, findIndexTime, updatePositionsAt, stBeginA,
    captureBubblePositions, deepCopyIdeas, copyIdea, initialAnimState, ideaA, ideaB]

/-- C4 (amended): an Add-keyframe reports an error if and only if the
scrubber-derived `keyframeTime` is at or below 0 or at or above
`duration / 1000` (the full timeline length — not `outPoint`).  On
rejection, `keyframes`, `inPoint`, `outPoint` and the timeline markers are
unchanged and the state is otherwise touched only by the unconditional
duration refresh and playback stop that precede the check.  On a strictly
interior `keyframeTime` no error is reported and a keyframe at
`keyframeTime` holding the captured positions is appended — to the existing
list when a recording is active, or to a freshly started recording
(`inPoint = 0`, `outPoint = duration / 1000`, `isRecording = true`)
otherwise. -/
theorem C4_keyframe_bounds (dur p : ℚ) (ideas : List Idea) (st : AnimState) :
    (p * (dur / 1000) ≤ 0 ∨ p * (dur / 1000) ≥ dur / 1000 →
      recordState .keyframe dur p ideas st =
        ({ st with data := { st.data with duration := dur, isPlaying := false } },
         some "Keyframe must be between start and end of animation")) ∧
    (¬ (p * (dur / 1000) ≤ 0 ∨ p * (dur / 1000) ≥ dur / 1000) →
      (recordState .keyframe dur p ideas st).2 = none ∧
      (recordState .keyframe dur p ideas st).1.data.keyframes =
        (if st.data.isRecording = true then st.data.keyframes else []) ++
          [{ time := p * (dur / 1000), positions := captureBubblePositions ideas }] ∧
      (recordState .keyframe dur p ideas st).1.data.isRecording = true ∧
      (st.data.isRecording = true →
        (recordState .keyframe dur p ideas st).1.data.inPoint = st.data.inPoint ∧
        (recordState .keyframe dur p ideas st).1.data.outPoint = st.data.outPoint) ∧
      (st.data.isRecording = false →
        (recordState .keyframe dur p ideas st).1.data.inPoint = 0 ∧
        (recordState .keyframe dur p ideas st).1.data.outPoint = dur / 1000)) := by
  constructor
  · intro h
    cases hp : st.data.isPlaying <;>
      simp [recordState, AnimState.updateDuration, hp, h]
  · intro h
    cases hr : st.data.isRecording <;> cases hp : st.data.isPlaying <;>
      simp [recordState, AnimState.updateDuration, addTimelineMarker, hr, hp, h]

/-- C4 witness: both directions of the amended bound property evaluated at
duration 10000 ms — slider progress 2 (keyframeTime 20, at or above 10) is
rejected with the exact abort state, and slider progress 1/2
(keyframeTime 5, strictly interior) is accepted with no error and the
keyframe appended. -/
theorem C4_keyframe_bounds_witness :
    ((2 : ℚ) * (10000 / 1000) ≤ 0 ∨ (2 : ℚ) * (10000 / 1000) ≥ 10000 / 1000) ∧
    recordState .keyframe 10000 2 [] initialAnimState =
      ({ initialAnimState with
          data := { initialAnimState.data with duration := 10000, isPlaying := false } },
       some "Keyframe must be between start and end of animation") ∧
    (¬ ((1 / 2 : ℚ) * (10000 / 1000) ≤ 0 ∨
        (1 / 2 : ℚ) * (10000 / 1000) ≥ 10000 / 1000)) ∧
    (recordState .keyframe 10000 (1 / 2) [ideaA] initialAnimState).2 = none ∧
    (recordState .keyframe 10000 (1 / 2) [ideaA] initialAnimState).1.data.keyframes =
      (if initialAnimState.data.isRecording = true
        then initialAnimState.data.keyframes else []) ++
        [{ time := (1 / 2 : ℚ) * (10000 / 1000),
           positions := captureBubblePositions [ideaA] }] :=
  ⟨by norm_num,
    (C4_keyframe_bounds 10000 2 [] initialAnimState).1 (by norm_num),
    by norm_num,
    ((C4_keyframe_bounds 10000 (1 / 2) [ideaA] initialAnimState).2 (by norm_num)).1,
    ((C4_keyframe_bounds 10000 (1 / 2) [ideaA] initialAnimState).2 (by norm_num)).2.1⟩

/-- C5 counterexample: an End without an active recording (on the initial
state, with the duration selector at 5000 ms) alerts and aborts, yet the
animation state is NOT left entirely unchanged: `data.duration` has already
been refreshed from 10000 to 5000 before the precondition check. -/
theorem C5_end_abort_updates_duration :
    (recordState .endRec 5000 0 [] initialAnimState).2 =
      some "Please start recording first (mark in point)" ∧
    (recordState .endRec 5000 0 [] initialAnimState).1.data.duration = 5000 ∧
    initialAnimState.data.duration = 10000 ∧
    (recordState .endRec 5000 0 [] initialAnimState).1 ≠ initialAnimState := by
  norm_num [recordState, AnimState.updateDuration, initialAnimState]

/-- C5 (amended): each precondition violation surfaces an alert and aborts;
the failing playback start, save and load leave the state entirely
unchanged, while the failing recorder operations leave keyframes, in/out
points and markers unchanged but have already refreshed `data.duration`
from the duration selector (and, for Add-keyframe, stopped any active
playback) before the check. -/
theorem C5_precondition_aborts :
    (∀ (dur p : ℚ) (ideas : List Idea) (st : AnimState), st.data.isRecording = false →
      recordState .endRec dur p ideas st =
        ({ st with data := { st.data with duration := dur } },
         some "Please start recording first (mark in point)")) ∧
    (∀ (dur p : ℚ) (ideas : List Idea) (st : AnimState),
      p * (dur / 1000) ≤ 0 ∨ p * (dur / 1000) ≥ dur / 1000 →
      recordState .keyframe dur p ideas st =
        ({ st with data := { st.data with duration := dur, isPlaying := false } },
         some "Keyframe must be between start and end of animation")) ∧
    (∀ (now : ℚ) (st : AnimState), st.data.keyframes.length < 2 →
      startPlayback now st =
        (st, some "Please set in point first to create animation (need at least 2 keyframes)")) ∧
    (∀ (now : ℚ) (name : String) (st : AnimState), st.data.keyframes.length < 2 →
      saveAnimation now name st =
        (none, some "Please record an animation first (mark in and out points)")) ∧
    (∀ (doc : LoadedDoc) (st : AnimState), (∀ kfs ∈ doc.keyframes, kfs.length < 2) →
      loadAnimation doc st =
        { st := st, animationData := none, deadTimelineMarkers := none,
          alertMsg := some "Invalid animation file: missing keyframes" }) := by
  refine ⟨?_, ?_, ?_, ?_, ?_⟩
  · intro dur p ideas st hrec
    simp [recordState, AnimState.updateDuration, hrec]
  · intro dur p ideas st h
    cases hp : st.data.isPlaying <;>
      simp [recordState, AnimState.updateDuration, hp, h]
  · intro now st hlen
    simp [startPlayback, hlen]
  · intro now name st hlen
    simp [saveAnimation, hlen]
  · intro doc st h
    cases hk : doc.keyframes with
    | none => simp [loadAnimation, hk]
    | some kfs =>
        have hlen : kfs.length < 2 := h kfs (by simp [hk])
        simp [loadAnimation, hk, hlen]

/-- C5 witness: the five abort branches evaluated on the initial state (and
an empty load document). -/
theorem C5_precondition_aborts_witness :
    initialAnimState.data.isRecording = false ∧
    initialAnimState.data.keyframes.length < 2 ∧
    recordState .endRec 5000 0 [] initialAnimState =
      ({ initialAnimState with
          data := { initialAnimState.data with duration := 5000 } },
       some "Please start recording first (mark in point)") ∧
    startPlayback 0 initialAnimState =
      (initialAnimState,
       some "Please set in point first to create animation (need at least 2 keyframes)") ∧
    saveAnimation 0 "A" initialAnimState =
      (none, some "Please record an animation first (mark in and out points)") ∧
    loadAnimation
      { inPoint := none, outPoint := none, keyframes := none, duration := none,
        name := none } initialAnimState =
      { st := initialAnimState, animationData := none, deadTimelineMarkers := none,
        alertMsg := some "Invalid animation file: missing keyframes" } :=
  ⟨rfl, by decide,
    C5_precondition_aborts.1 5000 0 [] initialAnimState rfl,
    C5_precondition_aborts.2.2.1 0 initialAnimState (by decide),
    C5_precondition_aborts.2.2.2.1 0 "A" initialAnimState (by decide),
    C5_precondition_aborts.2.2.2.2
      { inPoint := none, outPoint := none, keyframes := none, duration := none,
        name := none } initialAnimState (by simp)⟩

/-- C6: interpolation boundary.  For a state whose keyframe list is the two
bracketing keyframes at times t0 < t1, with the entity's snapshots at finite
positions (x0,y0) and (x1,y1): interpolating at a progress whose derived
`currentTime` equals t0 writes exactly (x0,y0); at t1, exactly (x1,y1); at
the midpoint (t0+t1)/2, exactly the arithmetic means. -/
theorem C6_interpolation_boundary (dta : AnimData) (ideas : List Idea) (i : ℕ)
    (k0 k1 : Keyframe) (sp ep : Idea) (x0 y0 x1 y1 p0 p1 pm : ℚ)
    (hk : dta.keyframes = [k0, k1]) (ht : k0.time < k1.time)
    (hsp : k0.positions[i]? = some sp) (hep : k1.positions[i]? = some ep)
    (hx0 : sp.x = JSVal.num x0) (hy0 : sp.y = JSVal.num y0)
    (hx1 : ep.x = JSVal.num x1) (hy1 : ep.y = JSVal.num y1)
    (hi : i < ideas.length)
    (hp0 : p0 * (dta.duration / 1000) = k0.time)
    (hp1 : p1 * (dta.duration / 1000) = k1.time)
    (hpm : pm * (dta.duration / 1000) = (k0.time + k1.time) / 2) :
    (((interpolateBubblePositions p0 dta ideas).getD i default).x = JSVal.num x0 ∧
     ((interpolateBubblePositions p0 dta ideas).getD i default).y = JSVal.num y0) ∧
    (((interpolateBubblePositions p1 dta ideas).getD i default).x = JSVal.num x1 ∧
     ((interpolateBubblePositions p1 dta ideas).getD i default).y = JSVal.num y1) ∧
    (((interpolateBubblePositions pm dta ideas).getD i default).x =
        JSVal.num ((x0 + x1) / 2) ∧
     ((interpolateBubblePositions pm dta ideas).getD i default).y =
        JSVal.num ((y0 + y1) / 2)) := by
  have hne : k1.time - k0.time ≠ 0 := sub_ne_zero.mpr (ne_of_gt ht)
  have hmain : ∀ (p f : ℚ), p * (dta.duration / 1000) - k0.time = f * (k1.time - k0.time) →
      ((interpolateBubblePositions p dta ideas).getD i default).x =
        JSVal.num (x0 + (x1 - x0) * f) ∧
      ((interpolateBubblePositions p dta ideas).getD i default).y =
        JSVal.num (y0 + (y1 - y0) * f) := by
    intro p f hf
    rw [interp_two p dta ideas k0 k1 hk]
    rw [interpolateLoop_getD _ _ _ ideas 0 i hi]
    simp only [Nat.zero_add, hsp, hep]
    have hseg : (JSVal.num (p * (dta.duration / 1000) - k0.time)).div
        (JSVal.num (k1.time - k0.time)) = JSVal.num f := by
      simp only [JSVal.div, if_neg hne]
      congr 1
      rw [hf]
      field_simp
    rw [hseg, interpIdea_x, interpIdea_y, hx0, hx1, hy0, hy1,
      interpField_num, interpField_num]
    exact ⟨rfl, rfl⟩
  refine ⟨?_, ?_, ?_⟩
  · have := hmain p0 0 (by rw [hp0]; ring)
    simpa using this
  · have := hmain p1 1 (by rw [hp1]; ring)
    rw [this.1, this.2]
    constructor <;> congr 1 <;> ring
  · have := hmain pm (1/2) (by rw [hpm]; ring)
    rw [this.1, this.2]
    constructor <;> congr 1 <;> ring

/-- C6 witness: the boundary property evaluated on keyframes at times 2 and
6 (duration 10000 ms) with snapshot positions (1,2) and (3,4):
interpolating at progress 2/10 yields x = 1, and at progress 4/10 (the
midpoint time 4) yields x = (1+3)/2. -/
theorem C6_interpolation_boundary_witness :
    ((2 : ℚ) < 6 ∧ (2 / 10 : ℚ) * (10000 / 1000) = 2) ∧
    ((interpolateBubblePositions (2 / 10) dtaC6 [ideaC7]).getD 0 default).x =
      JSVal.num 1 ∧
    ((interpolateBubblePositions (4 / 10) dtaC6 [ideaC7]).getD 0 default).x =
      JSVal.num ((1 + 3) / 2) :=
  ⟨⟨by norm_num, by norm_num⟩,
    (C6_interpolation_boundary dtaC6 [ideaC7] 0
      { time := 2, positions := [spC6] } { time := 6, positions := [epC6] }
      spC6 epC6 1 2 3 4 (2 / 10) (6 / 10) (4 / 10)
      rfl (by norm_num) rfl rfl rfl rfl rfl rfl (by decide)
      (by norm_num [dtaC6]) (by norm_num [dtaC6]) (by norm_num [dtaC6])).1.1,
    (C6_interpolation_boundary dtaC6 [ideaC7] 0
      { time := 2, positions := [spC6] } { time := 6, positions := [epC6] }
      spC6 epC6 1 2 3 4 (2 / 10) (6 / 10) (4 / 10)
      rfl (by norm_num) rfl rfl rfl rfl rfl rfl (by decide)
      (by norm_num [dtaC6]) (by norm_num [dtaC6]) (by norm_num [dtaC6])).2.2.1⟩

/-- C7 counterexample: both selected snapshots define `vx` but neither
defines `vy`, yet after interpolation the live entity's `vy` has been
overwritten (with a non-finite value), because the source gates the vy
write only on `vx !== undefined`; so "writes vx and vy only if both
snapshots define them" is false at this input. -/
theorem C7_vy_written_despite_undefined :
    spC7.vy = JSVal.undef ∧ epC7.vy = JSVal.undef ∧ ideaC7.vy = JSVal.num 8 ∧
    ((interpolateBubblePositions (1/2) dtaC7 [ideaC7]).getD 0 default).vy =
      JSVal.nonfinite := by
  refine ⟨rfl, rfl, rfl, ?_⟩
  norm_num [interpolateBubblePositions, findSegment, interpolateLoop, interpIdea,
    interpField, JSVal.div, JSVal.sub, JSVal.mul, JSVal.add, dtaC7, spC7, epC7, ideaC7]
  decide

/-- C7 (amended): per-field gating of the interpolation write loop, for a
state with the two bracketing keyframes: on every shared entity index, x and
y are always written with the interpolated values; vx AND vy are written
exactly when both snapshots define vx (vy's own definedness is not checked:
a missing vy then produces a non-finite write); radius is written exactly
when both snapshots define radius; the title field is never touched; and
every entity whose index is out of range of either snapshot list is left
completely untouched. -/
theorem C7_per_field_gating (progress : ℚ) (dta : AnimData) (ideas : List Idea)
    (k0 k1 : Keyframe) (i : ℕ)
    (hk : dta.keyframes = [k0, k1]) (hi : i < ideas.length) :
    let seg := (JSVal.num (progress * (dta.duration / 1000) - k0.time)).div
                 (JSVal.num (k1.time - k0.time))
    let res := interpolateBubblePositions progress dta ideas
    res.length = ideas.length ∧
    (∀ sp ep, k0.positions[i]? = some sp → k1.positions[i]? = some ep →
      (res.getD i default).x = interpField sp.x ep.x seg ∧
      (res.getD i default).y = interpField sp.y ep.y seg ∧
      ((sp.vx ≠ JSVal.undef ∧ ep.vx ≠ JSVal.undef) →
        (res.getD i default).vx = interpField sp.vx ep.vx seg ∧
        (res.getD i default).vy = interpField sp.vy ep.vy seg) ∧
      (¬ (sp.vx ≠ JSVal.undef ∧ ep.vx ≠ JSVal.undef) →
        (res.getD i default).vx = (ideas.getD i default).vx ∧
        (res.getD i default).vy = (ideas.getD i default).vy) ∧
      ((sp.radius ≠ JSVal.undef ∧ ep.radius ≠ JSVal.undef) →
        (res.getD i default).radius = interpField sp.radius ep.radius seg) ∧
      (¬ (sp.radius ≠ JSVal.undef ∧ ep.radius ≠ JSVal.undef) →
        (res.getD i default).radius = (ideas.getD i default).radius) ∧
      (res.getD i default).title = (ideas.getD i default).title) ∧
    ((k0.positions[i]? = none ∨ k1.positions[i]? = none) →
      res.getD i default = ideas.getD i default) := by
  intro seg res
  have hres : res = interpolateLoop seg k0.positions k1.positions 0 ideas :=
    interp_two progress dta ideas k0 k1 hk
  refine ⟨?_, ?_, ?_⟩
  · rw [hres]; exact interpolateLoop_length _ _ _ _ _
  · intro sp ep hsp hep
    rw [hres, interpolateLoop_getD _ _ _ ideas 0 i hi]
    simp only [Nat.zero_add, hsp, hep]
    exact ⟨interpIdea_x _ _ _ _, interpIdea_y _ _ _ _,
      fun h => interpIdea_vx_defined _ _ _ _ h,
      fun h => interpIdea_vx_undefined _ _ _ _ h,
      fun h => interpIdea_radius_defined _ _ _ _ h,
      fun h => interpIdea_radius_undefined _ _ _ _ h,
      interpIdea_title _ _ _ _⟩
  · intro hnone
    rw [hres, interpolateLoop_getD _ _ _ ideas 0 i hi]
    simp only [Nat.zero_add]
    exact interpIdea_none _ _ _ _ hnone

/-- C7 witness: the gating property evaluated on the two-keyframe state
`dtaC7` with one live entity. -/
theorem C7_per_field_gating_witness :
    dtaC7.keyframes = [{ time := 0, positions := [spC7] },
                       { time := 10, positions := [epC7] }] ∧
    0 < ([ideaC7] : List Idea).length ∧
    (interpolateBubblePositions (1 / 2) dtaC7 [ideaC7]).length = 1 :=
  ⟨rfl, by decide,
    (C7_per_field_gating (1 / 2) dtaC7 [ideaC7]
      { time := 0, positions := [spC7] } { time := 10, positions := [epC7] } 0
      rfl (by decide)).1⟩

/-- C8: capture fidelity.  `captureBubblePositions` returns a sequence of
the same length with every field of every element equal to the source's;
and in the reference model with explicit object identity, the copies are
freshly allocated, so mutating any source entity afterwards leaves every
captured snapshot entry unchanged (it still reads back the original
values). -/
theorem C8_capture_fidelity :
    (∀ ideas : List Idea, (captureBubblePositions ideas).length = ideas.length) ∧
    (∀ (ideas : List Idea) (i : ℕ), (captureBubblePositions ideas)[i]? = ideas[i]?) ∧
    (∀ (heap : List Idea) (live : List ℕ),
      ((RefModel.captureRefs heap live).2).length = live.length) ∧
    (∀ (heap : List Idea) (live : List ℕ) (i : ℕ), i < live.length →
      RefModel.readIdea (RefModel.captureRefs heap live).1
        ((RefModel.captureRefs heap live).2.getD i 0) =
      RefModel.readIdea heap (live.getD i 0)) ∧
    (∀ (heap : List Idea) (live : List ℕ), (∀ r ∈ live, r < heap.length) →
      ∀ (r : ℕ), r ∈ live → ∀ (v : Idea) (i : ℕ), i < live.length →
        RefModel.readIdea
          (RefModel.writeIdea (RefModel.captureRefs heap live).1 r v)
          ((RefModel.captureRefs heap live).2.getD i 0) =
        RefModel.readIdea heap (live.getD i 0)) := by
  have hsnapref : ∀ (heap : List Idea) (live : List ℕ) (i : ℕ), i < live.length →
      (RefModel.captureRefs heap live).2.getD i 0 = heap.length + i := by
    intro heap live i hi
    simp [RefModel.captureRefs, List.getD_eq_getElem?_getD, List.getElem?_map,
      List.getElem?_range, hi]
  have hread : ∀ (heap : List Idea) (live : List ℕ) (i : ℕ), i < live.length →
      RefModel.readIdea (RefModel.captureRefs heap live).1 (heap.length + i) =
        RefModel.readIdea heap (live.getD i 0) := by
    intro heap live i hi
    unfold RefModel.readIdea RefModel.captureRefs
    dsimp only
    rw [List.getElem?_append_right (by omega)]
    rw [Nat.add_sub_cancel_left]
    rw [List.getElem?_map]
    rw [List.getElem?_eq_getElem hi]
    rw [List.getD_eq_getElem live 0 hi]
    rfl
  refine ⟨?_, ?_, ?_, ?_, ?_⟩
  · intro ideas; simp [captureBubblePositions_eq]
  · intro ideas i; simp [captureBubblePositions_eq]
  · intro heap live; simp [RefModel.captureRefs]
  · intro heap live i hi
    rw [hsnapref heap live i hi]
    exact hread heap live i hi
  · intro heap live hvalid r hr v i hi
    rw [hsnapref heap live i hi]
    have hrlt : r < heap.length := hvalid r hr
    have hsame : RefModel.readIdea
        (RefModel.writeIdea (RefModel.captureRefs heap live).1 r v)
        (heap.length + i) =
        RefModel.readIdea (RefModel.captureRefs heap live).1 (heap.length + i) := by
      simp [RefModel.readIdea, RefModel.writeIdea]
      rw [List.getElem?_set_ne (by omega)]
    rw [hsame]
    exact hread heap live i hi

/-- C8 witness: the independence property evaluated on a one-entity heap:
after mutating the live entity at reference 0 to `ideaB`, the captured
snapshot still reads back the original `ideaA`. -/
theorem C8_capture_fidelity_witness :
    (∀ r ∈ ([0] : List ℕ), r < ([ideaA] : List Idea).length) ∧
    RefModel.readIdea
      (RefModel.writeIdea (RefModel.captureRefs [ideaA] [0]).1 0 ideaB)
      ((RefModel.captureRefs [ideaA] [0]).2.getD 0 0) =
      RefModel.readIdea [ideaA] (([0] : List ℕ).getD 0 0) :=
  ⟨by decide,
    C8_capture_fidelity.2.2.2.2 [ideaA] [0] (by decide) 0 (by decide) ideaB 0 (by decide)⟩

/-- C9: playback termination.  For a tick of the scheduled animate callback
while playing, with a positive playback duration: when the elapsed
wall-clock time reaches or exceeds the duration, the computed progress is
exactly 1, `isPlaying` becomes false and no further tick is scheduled; when
the elapsed fraction is strictly below 1, the computed progress equals that
fraction, exactly one further tick is scheduled and `isPlaying` stays true;
and any tick entered with `isPlaying` false returns immediately without
rescheduling or touching anything. -/
theorem C9_playback_termination (dur now : ℚ) (ideas : List Idea) (st : AnimState)
    (hplay : st.data.isPlaying = true) (hdur : 0 < dur) :
    (dur ≤ now - st.playbackStartTime →
      (animateStep dur now ideas st).progress = 1 ∧
      (animateStep dur now ideas st).st.data.isPlaying = false ∧
      (animateStep dur now ideas st).rescheduled = false) ∧
    ((now - st.playbackStartTime) / dur < 1 →
      (animateStep dur now ideas st).progress = (now - st.playbackStartTime) / dur ∧
      (animateStep dur now ideas st).progress < 1 ∧
      (animateStep dur now ideas st).rescheduled = true ∧
      (animateStep dur now ideas st).st.data.isPlaying = true) ∧
    (∀ (st2 : AnimState) (ideas2 : List Idea) (now2 : ℚ), st2.data.isPlaying = false →
      animateStep dur now2 ideas2 st2 =
        { st := st2, ideas := ideas2, progress := 0, rescheduled := false }) := by
  refine ⟨?_, ?_, ?_⟩
  · intro helapsed
    have hprog : min ((now - st.playbackStartTime) / dur) 1 = 1 :=
      min_eq_right ((one_le_div hdur).mpr helapsed)
    have hnotlt : ¬ (min ((now - st.playbackStartTime) / dur) 1 < 1) := by
      rw [hprog]; exact lt_irrefl 1
    refine ⟨?_, ?_, ?_⟩ <;>
      simp [animateStep, hplay, hprog, hnotlt]
  · intro hlt
    have hprog : min ((now - st.playbackStartTime) / dur) 1 =
        (now - st.playbackStartTime) / dur :=
      min_eq_left (le_of_lt hlt)
    refine ⟨?_, ?_, ?_, ?_⟩ <;>
      simp [animateStep, hplay, hprog, hlt]
  · intro st2 ideas2 now2 hstop
    simp [animateStep, hstop]

/-- C9 witness: the termination property evaluated at playback duration
1000 ms with elapsed time 1000 ms. -/
theorem C9_playback_termination_witness :
    stPlayingZ.data.isPlaying = true ∧ (0 : ℚ) < 1000 ∧
    (1000 : ℚ) ≤ 1000 - stPlayingZ.playbackStartTime ∧
    (animateStep 1000 1000 [] stPlayingZ).progress = 1 ∧
    (animateStep 1000 1000 [] stPlayingZ).st.data.isPlaying = false ∧
    (animateStep 1000 1000 [] stPlayingZ).rescheduled = false :=
  ⟨rfl, by norm_num, by norm_num [stPlayingZ, initialAnimState],
    ((C9_playback_termination 1000 1000 [] stPlayingZ rfl (by norm_num)).1
      (by norm_num [stPlayingZ, initialAnimState])).1,
    ((C9_playback_termination 1000 1000 [] stPlayingZ rfl (by norm_num)).1
      (by norm_num [stPlayingZ, initialAnimState])).2.1,
    ((C9_playback_termination 1000 1000 [] stPlayingZ rfl (by norm_num)).1
      (by norm_num [stPlayingZ, initialAnimState])).2.2⟩

/-- C10: the segment fraction is computed with an unguarded division.  When
the two selected bracketing keyframes have distinct times, the division is
well-defined and the entity's x is written with the exact finite linear
blend; when the two keyframes share a time value, the divisor is zero and a
non-finite value is written into the entity's x and y positions. -/
theorem C10_segment_fraction_divisor :
    (∀ (progress : ℚ) (dta : AnimData) (ideas : List Idea) (k0 k1 : Keyframe)
       (i : ℕ) (sp ep : Idea) (x0 x1 : ℚ),
      dta.keyframes = [k0, k1] → k0.time ≠ k1.time → i < ideas.length →
      k0.positions[i]? = some sp → k1.positions[i]? = some ep →
      sp.x = JSVal.num x0 → ep.x = JSVal.num x1 →
      ((interpolateBubblePositions progress dta ideas).getD i default).x =
        JSVal.num (x0 + (x1 - x0) *
          ((progress * (dta.duration / 1000) - k0.time) / (k1.time - k0.time)))) ∧
    (∀ (progress : ℚ) (dta : AnimData) (ideas : List Idea) (k0 k1 : Keyframe)
       (i : ℕ) (sp ep : Idea),
      dta.keyframes = [k0, k1] → k0.time = k1.time → i < ideas.length →
      k0.positions[i]? = some sp → k1.positions[i]? = some ep →
      ((interpolateBubblePositions progress dta ideas).getD i default).x =
        JSVal.nonfinite ∧
      ((interpolateBubblePositions progress dta ideas).getD i default).y =
        JSVal.nonfinite) := by
  constructor
  · intro progress dta ideas k0 k1 i sp ep x0 x1 hk ht hi hsp hep hx0 hx1
    have hne : k1.time - k0.time ≠ 0 := sub_ne_zero.mpr (Ne.symm ht)
    rw [interp_two progress dta ideas k0 k1 hk]
    rw [interpolateLoop_getD _ _ _ ideas 0 i hi]
    simp only [Nat.zero_add, hsp, hep]
    rw [interpIdea_x, hx0, hx1]
    simp only [JSVal.div, if_neg hne]
    rw [interpField_num]
  · intro progress dta ideas k0 k1 i sp ep hk ht hi hsp hep
    have hzero : k1.time - k0.time = 0 := by rw [ht]; ring
    rw [interp_two progress dta ideas k0 k1 hk]
    rw [interpolateLoop_getD _ _ _ ideas 0 i hi]
    simp only [Nat.zero_add, hsp, hep]
    rw [interpIdea_x, interpIdea_y]
    simp [JSVal.div, hzero, interpField_nonfinite]

/-- C10 witness: the division-by-zero case evaluated on two keyframes that
share the time value 5: the written x is non-finite. -/
theorem C10_segment_fraction_divisor_witness :
    dtaZ.keyframes = [{ time := 5, positions := [spC6] },
                      { time := 5, positions := [epC6] }] ∧
    ((interpolateBubblePositions 0 dtaZ [ideaC7]).getD 0 default).x =
      JSVal.nonfinite :=
  ⟨rfl,
    (C10_segment_fraction_divisor.2 0 dtaZ [ideaC7]
      { time := 5, positions := [spC6] } { time := 5, positions := [epC6] } 0
      spC6 epC6 rfl rfl (by decide) rfl rfl).1⟩
